import Mathlib

/-!
Verification of the torrcOverride launcher
(`src/src/resources/torrcOverride/override.c`).

The whole program is

```
int main()
{
   return execve(TOR_ARM_REPLACE_TORRC, NULL, NULL);
}
```

We give a shallow embedding: the operating system is modelled as a kernel
that decides, from the caller's credentials and the exec request, whether
the process image is replaced or `execve` returns an error; `main` is
embedded as the single system call it issues, the resulting process
behaviour, and the trace of system calls it performs.  Access-control
decisions live entirely in the kernel model, never in the launcher, which
matches the source: `main` takes no parameters and inspects nothing.
-/

namespace TorrcOverride

/-- Modelled from the spec: the compile-time constant `TOR_ARM_REPLACE_TORRC`
is defined in the header `tor-arm-replace-torrc.h`, which is not part of the
sources here.  Spec section 3 says it is "an absolute filesystem path to the
target executable, baked in at build time", and the comments in `override.c`
name the installed target `$(DESTDIR)/usr/bin/tor-arm-replace-torrc.py`. -/
def TOR_ARM_REPLACE_TORRC : String := "/usr/bin/tor-arm-replace-torrc.py"

/-- Process credentials assigned by the OS at process start (after the
setuid/setgid bits of the launcher file have been applied). -/
structure Identity where
  uid : Nat
  gid : Nat
  groups : List Nat
deriving DecidableEq, Repr

/-- Everything the invoker supplies to one invocation of the launcher:
the credentials the OS assigned, the command-line arguments, and the
environment the launcher itself was started with. -/
structure Invocation where
  ident : Identity
  args : List String
  env : List (String × String)
deriving DecidableEq, Repr

/-- The system calls relevant to the launcher's side-effect footprint.
`execve` carries the raw pointers of the C call: `none` models a NULL
`argv`/`envp` pointer.  The other constructors are calls the launcher
could in principle make (creating or writing files, producing output,
opening network sockets) and are here so that their absence from the
trace is a provable statement. -/
inductive Syscall
  | execve (path : String) (argv : Option (List String)) (envp : Option (List String))
  | openForWrite (path : String)
  | writeFd (fd : Nat) (data : String)
  | socketOpen
deriving DecidableEq, Repr

/-- Does the call create or modify a file? -/
def Syscall.writesFile : Syscall → Bool
  | .openForWrite _ => true
  | _ => false

/-- Does the call produce output (logging, messages) on a descriptor? -/
def Syscall.writesOutput : Syscall → Bool
  | .writeFd _ _ => true
  | _ => false

/-- Does the call open network resources? -/
def Syscall.opensNetwork : Syscall → Bool
  | .socketOpen => true
  | _ => false

/-- Is the call an exec request? -/
def Syscall.isExec : Syscall → Bool
  | .execve _ _ _ => true
  | _ => false

/-- The failure causes `execve` can report through `errno`.  The launcher
never looks at `errno`, which the theorems make visible: no conclusion
depends on which cause occurred. -/
inductive ExecError
  | enoent
  | eacces
  | enoexec
  | eother
deriving DecidableEq, Repr

/-- The kernel model: for an exec request it either replaces the process
image (`none`) or makes `execve` return with an error cause (`some err`).
The decision may depend on the caller's credentials and on the request —
this is where the OS's permission checks (file existence, execute bits,
group membership) live. -/
structure Kernel where
  execveResult : Identity → Syscall → Option ExecError

/-- Linux semantics of passing a NULL pointer as `argv` or `envp` to
`execve`: the new program receives an empty vector. -/
def effectiveVector : Option (List String) → List String
  | none => []
  | some v => v

/-- The one system call `main` issues (`override.c` line 49):
`execve(TOR_ARM_REPLACE_TORRC, NULL, NULL)`.  `main` is declared with no
parameters and reads nothing from the invocation, so the call is the same
function of every invocation. -/
def mainExecCall (_inv : Invocation) : Syscall :=
  Syscall.execve TOR_ARM_REPLACE_TORRC none none

/-- The value `main` returns when `execve` returns: `execve` yields `-1`
on failure and `main` passes it through unchanged (`return execve(...)`). -/
def mainReturnOnFailure : Int := -1

/-- C process semantics: the exit status the invoker observes is the low
eight bits of the value returned from `main`. -/
def exitStatusOfReturn (r : Int) : Nat := (r % 256).toNat

/-- What the invoker can observe of one run of the launcher: either the
process image was replaced (and the target started with the given path,
argument vector and environment), or the process exited with a status. -/
inductive ProcBehavior
  | becameTarget (path : String) (argv : List String) (envp : List String)
  | exited (status : Nat)
deriving DecidableEq, Repr

/-- Running `main` under kernel `k` with invocation `inv`: the single
`execve` either replaces the image — the target starts with the effective
(empty) argument vector and environment — or returns `-1`, which `main`
returns, producing exit status 255. -/
def run (k : Kernel) (inv : Invocation) : ProcBehavior :=
  match k.execveResult inv.ident (mainExecCall inv) with
  | none =>
      ProcBehavior.becameTarget TOR_ARM_REPLACE_TORRC
        (effectiveVector none) (effectiveVector none)
  | some _ => ProcBehavior.exited (exitStatusOfReturn mainReturnOnFailure)

/-- The system calls `main` issues, in order.  `main` is straight-line
code with a single `execve` and no other statement, so the trace is that
one call whatever the kernel decides. -/
def trace (_k : Kernel) (inv : Invocation) : List Syscall :=
  [mainExecCall inv]

/-- States of the launcher process viewed as a machine: still running the
launcher's code, running the target program after a successful exec, or
terminated with an exit status. -/
inductive LState
  | launcher
  | runningTarget
  | terminated (status : Nat)
deriving DecidableEq, Repr

/-- One step of the launcher under kernel `k` and invocation `inv`:
from `launcher` the `execve` either succeeds (the process becomes the
target) or fails (the process terminates with status 255); the other two
states are terminal — no launcher code runs after a successful exec. -/
def step (k : Kernel) (inv : Invocation) : LState → Option LState
  | LState.launcher =>
      match k.execveResult inv.ident (mainExecCall inv) with
      | none => some LState.runningTarget
      | some _ => some (LState.terminated (exitStatusOfReturn mainReturnOnFailure))
  | LState.runningTarget => none
  | LState.terminated _ => none

/-- A fixed small invocation used by the witness theorems. -/
def inv0 : Invocation :=
  { ident := { uid := 1000, gid := 1000, groups := [117] }
  , args := ["tor-arm-replace-torrc"]
  , env := [("PATH", "/usr/bin"), ("HOME", "/home/user")] }

/-- A kernel that grants every exec request. -/
def kernelOK : Kernel := ⟨fun _ _ => none⟩

/-- A kernel that fails every exec request with ENOENT. -/
def kernelENOENT : Kernel := ⟨fun _ _ => some ExecError.enoent⟩

/-- C1: for every invocation, the launcher replaces its own process image
with the compile-time-fixed target executable, invoked with an empty
argument vector and an empty environment; no environment variables of the
launcher are forwarded to the target. -/
theorem c1_exec_fixed_target_empty_vectors (k : Kernel) (inv : Invocation) :
    mainExecCall inv = Syscall.execve TOR_ARM_REPLACE_TORRC none none ∧
    effectiveVector none = [] ∧
    ∀ path argv envp, run k inv = ProcBehavior.becameTarget path argv envp →
      path = TOR_ARM_REPLACE_TORRC ∧ argv = [] ∧ envp = [] := by
  refine ⟨rfl, rfl, fun path argv envp h => ?_⟩
  cases hk : k.execveResult inv.ident (mainExecCall inv)
  · simp only [run, hk, effectiveVector, ProcBehavior.becameTarget.injEq] at h
    exact ⟨h.1.symm, h.2.1.symm, h.2.2.symm⟩
  · simp [run, hk] at h

/-- C1 witness: with a kernel that grants the exec, the launcher becomes
the fixed target with empty argument vector and empty environment, even
though the launcher itself was started with arguments and environment. -/
theorem c1_exec_fixed_target_empty_vectors_witness :
    TOR_ARM_REPLACE_TORRC = TOR_ARM_REPLACE_TORRC ∧ ([] : List String) = [] ∧
    ([] : List String) = [] :=
  (c1_exec_fixed_target_empty_vectors kernelOK inv0).2.2
    TOR_ARM_REPLACE_TORRC [] [] rfl

/-- C2: if the exec operation fails, whatever the cause, the launcher
terminates with the non-zero exit status 255 reported to its invoker, and
performs no retry (a single exec in the trace), no fallback, and no
logging or other output of its own. -/
theorem c2_exec_failure_exits_nonzero (k : Kernel) (inv : Invocation)
    (err : ExecError)
    (h : k.execveResult inv.ident (mainExecCall inv) = some err) :
    run k inv = ProcBehavior.exited 255 ∧ (255 : Nat) ≠ 0 ∧
    trace k inv = [Syscall.execve TOR_ARM_REPLACE_TORRC none none] ∧
    (trace k inv).all (fun s => !s.writesOutput) = true := by
  refine ⟨?_, by decide, rfl, rfl⟩
  simp only [run, h]
  rfl

/-- C2 witness: with a kernel in which the target is missing, the
launcher exits with status 255 and its trace is the single exec call. -/
theorem c2_exec_failure_exits_nonzero_witness :
    run kernelENOENT inv0 = ProcBehavior.exited 255 ∧ (255 : Nat) ≠ 0 ∧
    trace kernelENOENT inv0 =
      [Syscall.execve TOR_ARM_REPLACE_TORRC none none] ∧
    (trace kernelENOENT inv0).all (fun s => !s.writesOutput) = true :=
  c2_exec_failure_exits_nonzero kernelENOENT inv0 ExecError.enoent rfl

/-- C3: two invocations that differ only in the command-line arguments
supplied by the caller (identity and environment equal) have identical
behaviour: the same observable outcome and the same system-call trace, so
arguments are never forwarded and never affect control flow. -/
theorem c3_args_never_affect_behavior (k : Kernel) (inv inv' : Invocation)
    (hid : inv.ident = inv'.ident) (_henv : inv.env = inv'.env) :
    run k inv = run k inv' ∧ trace k inv = trace k inv' := by
  constructor
  · unfold run mainExecCall
    rw [hid]
  · rfl

/-- C3 witness: the launcher behaves identically when invoked with no
arguments and with an arbitrary argument list. -/
theorem c3_args_never_affect_behavior_witness :
    run kernelOK inv0 =
      run kernelOK { inv0 with args := [] } ∧
    trace kernelOK inv0 =
      trace kernelOK { inv0 with args := [] } :=
  c3_args_never_affect_behavior kernelOK inv0 { inv0 with args := [] }
    rfl rfl

/-- C4: for every invocation the path passed to the exec operation equals
the compile-time constant TOR_ARM_REPLACE_TORRC, and the whole exec call
is the same for all invocations: no runtime input (argument, environment
variable, identity) can alter the exec target. -/
theorem c4_exec_path_is_fixed_constant (inv : Invocation) :
    mainExecCall inv = Syscall.execve TOR_ARM_REPLACE_TORRC none none ∧
    ∀ inv', mainExecCall inv' = mainExecCall inv :=
  ⟨rfl, fun _ => rfl⟩

/-- C5: for every invocation, under every kernel, the launcher's trace is
exactly the one exec call: it performs no file writes, no output and no
network activity — in particular none when the exec fails, since the
trace does not depend on the kernel's decision. -/
theorem c5_no_side_effects_beyond_exec (k : Kernel) (inv : Invocation) :
    trace k inv = [Syscall.execve TOR_ARM_REPLACE_TORRC none none] ∧
    (trace k inv).all
      (fun s => !s.writesFile && !s.writesOutput && !s.opensNetwork) = true ∧
    (trace k inv).all (fun s => s.isExec) = true :=
  ⟨rfl, rfl, rfl⟩

/-- C6: the launcher is a two-state machine: from the launcher state the
only transitions are exec-succeeds (the process becomes the target) and
exec-fails (the process terminates with status 255); the target and
terminated states are terminal, so no launcher code runs after a
successful exec. -/
theorem c6_two_state_machine (k : Kernel) (inv : Invocation) :
    (step k inv LState.launcher = some LState.runningTarget ∨
     step k inv LState.launcher = some (LState.terminated 255)) ∧
    step k inv LState.runningTarget = none ∧
    (∀ s, step k inv (LState.terminated s) = none) := by
  refine ⟨?_, rfl, fun _ => rfl⟩
  unfold step
  cases k.execveResult inv.ident (mainExecCall inv)
  · exact Or.inl rfl
  · exact Or.inr rfl

/-- C7: the launcher performs no identity checks of its own: two
invocations that differ only in the invoking identity (arguments and
environment equal) produce the identical exec call and the identical
trace; access control is the kernel's decision alone. -/
theorem c7_no_identity_checks (k : Kernel) (inv inv' : Invocation)
    (_hargs : inv.args = inv'.args) (_henv : inv.env = inv'.env) :
    mainExecCall inv = mainExecCall inv' ∧ trace k inv = trace k inv' :=
  ⟨rfl, rfl⟩

/-- C7 witness: the exec call and trace are the same for a uid-1000 group
member and for root. -/
theorem c7_no_identity_checks_witness :
    mainExecCall inv0 =
      mainExecCall { inv0 with ident := { uid := 0, gid := 0, groups := [] } } ∧
    trace kernelOK inv0 =
      trace kernelOK { inv0 with ident := { uid := 0, gid := 0, groups := [] } } :=
  c7_no_identity_checks kernelOK inv0
    { inv0 with ident := { uid := 0, gid := 0, groups := [] } } rfl rfl

/-- C8: on exec failure, main returns the execve return value -1
unchanged, so the process exit status is uniformly 255 regardless of the
failure cause — the conclusion does not depend on which error occurred. -/
theorem c8_exit_status_always_255 (k : Kernel) (inv : Invocation)
    (err : ExecError)
    (h : k.execveResult inv.ident (mainExecCall inv) = some err) :
    mainReturnOnFailure = -1 ∧
    exitStatusOfReturn mainReturnOnFailure = 255 ∧
    run k inv = ProcBehavior.exited 255 := by
  refine ⟨rfl, by decide, ?_⟩
  simp only [run, h]
  rfl

/-- C8 witness: with a kernel denying the exec with EACCES, the exit
status is 255. -/
theorem c8_exit_status_always_255_witness :
    mainReturnOnFailure = -1 ∧
    exitStatusOfReturn mainReturnOnFailure = 255 ∧
    run ⟨fun _ _ => some ExecError.eacces⟩ inv0 = ProcBehavior.exited 255 :=
  c8_exit_status_always_255 ⟨fun _ _ => some ExecError.eacces⟩ inv0
    ExecError.eacces rfl

/-- C9: the launcher always terminates: every invocation either has its
process image replaced or exits immediately with status 255, and the
trace is a single system call — straight-line code with no loop. -/
theorem c9_always_terminates (k : Kernel) (inv : Invocation) :
    (run k inv = ProcBehavior.becameTarget TOR_ARM_REPLACE_TORRC [] [] ∨
     run k inv = ProcBehavior.exited 255) ∧
    (trace k inv).length = 1 := by
  refine ⟨?_, rfl⟩
  unfold run
  cases k.execveResult inv.ident (mainExecCall inv)
  · exact Or.inl rfl
  · exact Or.inr rfl

end TorrcOverride
